import Mathlib

/-!
# Verification of `acme-dns-auth.py` (acme-dns certbot hook)

A shallow embedding of the single source file `src/acme-dns-auth.py`
(classes `AcmeDnsClient` and `Storage`, and the `__main__` orchestration
block), together with theorems settling the specification claims.

Modelling conventions:
* Python `dict`s produced by `json.loads` / stored in `Storage._data` are
  modelled by the inductive `Json` type below; `dict`s used as JSON objects
  are association lists in insertion order (Python dicts preserve insertion
  order; assignment to an existing key overwrites in place).
* `json.loads` is modelled by the executable parser `jsonParse`
  (JSON values restricted to `null`, booleans, integer numerals, strings
  with the common escapes, arrays and objects; this covers every literal
  the program and the claims exercise).
* `json.dumps` with default separators is modelled by `Json.dumps`.
* Python string operations `key.startswith("*.")` and `key[2:]` are
  modelled on the character list underlying a Lean `String`.
* Side effects (HTTP calls, prints, `sys.exit`) are recorded in an event
  trace; the string templating of `print` messages is abstracted: each
  print event carries the exact data the source formats into the message.
* The on-disk storage file is a `FileState`; the possible I/O outcomes of
  `Storage.save` (`IOError` on open, or on write after `n` characters were
  written following the `truncate()` call) are an explicit parameter.
-/

set_option autoImplicit false

namespace AcmeDns

/-- JSON values, the model of Python objects handled by `json.loads` /
`json.dumps` in the script (numbers restricted to integers, which covers
all data the program exchanges). Objects are association lists in
insertion order. -/
inductive Json where
  | null : Json
  | bool (b : Bool) : Json
  | num (n : Int) : Json
  | str (s : String) : Json
  | arr (elems : List Json) : Json
  | obj (members : List (String × Json)) : Json

namespace Json

/-- Escape a string for JSON output, as `json.dumps` does for the
characters the program uses (quote, backslash and the common control
characters; `\uXXXX` escaping of other code points is not needed by any
claim and is left as the identity). -/
def escapeString (s : String) : String :=
  s.data.foldl (fun acc c =>
    acc ++ (if c = '"' then "\\\""
            else if c = '\\' then "\\\\"
            else if c = '\n' then "\\n"
            else if c = '\t' then "\\t"
            else if c = '\r' then "\\r"
            else String.singleton c)) ""

mutual

/-- Model of Python `json.dumps(x)` with its default separators
`", "` and `": "`. -/
def dumps : Json → String
  | null => "null"
  | bool true => "true"
  | bool false => "false"
  | num n => toString n
  | str s => "\"" ++ escapeString s ++ "\""
  | arr elems => "[" ++ dumpsElems elems ++ "]"
  | obj members => "\x7b" ++ dumpsMembers members ++ "\x7d"

/-- Array elements joined by `", "`. -/
def dumpsElems : List Json → String
  | [] => ""
  | [x] => dumps x
  | x :: y :: rest => dumps x ++ ", " ++ dumpsElems (y :: rest)

/-- Object members rendered `"key": value` and joined by `", "`. -/
def dumpsMembers : List (String × Json) → String
  | [] => ""
  | [(k, v)] => "\"" ++ escapeString k ++ "\": " ++ dumps v
  | (k, v) :: m :: rest =>
      "\"" ++ escapeString k ++ "\": " ++ dumps v ++ ", " ++ dumpsMembers (m :: rest)

end

/-- Look up a string field of a JSON object (`account["username"]` etc.);
`none` both when the key is absent (Python `KeyError`) and when the value
is not a string. -/
def getStr : Json → String → Option String
  | obj members, k =>
      match members.lookup k with
      | some (str s) => some s
      | _ => none
  | _, _ => none

end Json

/-! ## The JSON parser, model of `json.loads` -/

/-- JSON whitespace characters accepted between tokens by `json.loads`. -/
def isJsonWs (c : Char) : Bool :=
  c = ' ' || c = '\t' || c = '\n' || c = '\r'

/-- Skip leading JSON whitespace. -/
def skipWs (cs : List Char) : List Char :=
  cs.dropWhile isJsonWs

/-- Parse the body of a JSON string literal after the opening quote;
returns the decoded characters and the input after the closing quote. -/
def parseStringBody : List Char → Option (List Char × List Char)
  | [] => none
  | '"' :: rest => some ([], rest)
  | '\\' :: e :: rest =>
      match (match e with
             | '"' => some '"'
             | '\\' => some '\\'
             | '/' => some '/'
             | 'n' => some '\n'
             | 't' => some '\t'
             | 'r' => some '\r'
             | _ => none) with
      | some c =>
          match parseStringBody rest with
          | some (cs, rem) => some (c :: cs, rem)
          | none => none
      | none => none
  | c :: rest =>
      match parseStringBody rest with
      | some (cs, rem) => some (c :: cs, rem)
      | none => none

/-- Parse a run of decimal digits. -/
def parseDigits : List Char → List Char × List Char
  | [] => ([], [])
  | c :: rest =>
      if c.isDigit then
        let (ds, rem) := parseDigits rest
        (c :: ds, rem)
      else ([], c :: rest)

/-- Digits to a natural number value. -/
def digitsToNat (ds : List Char) : Nat :=
  ds.foldl (fun acc c => acc * 10 + (c.toNat - '0'.toNat)) 0

/-- Parse a JSON integer numeral (optional minus sign, no leading zeros),
as `json.loads` accepts for the integer-valued data the program uses. -/
def parseIntNumeral (cs : List Char) : Option (Int × List Char) :=
  let (neg, cs') := match cs with
                    | '-' :: rest => (true, rest)
                    | _ => (false, cs)
  match parseDigits cs' with
  | ([], _) => none
  | (d :: ds, rem) =>
      if d = '0' && ds ≠ [] then none
      else
        let n : Int := Int.ofNat (digitsToNat (d :: ds))
        some (if neg then -n else n, rem)

mutual

/-- Fueled recursive-descent parser for one JSON value; returns the value
and the remaining input. -/
def parseValue : Nat → List Char → Option (Json × List Char)
  | 0, _ => none
  | _ + 1, [] => none
  | fuel + 1, c :: rest =>
      if c = 'n' then
        match rest with
        | 'u' :: 'l' :: 'l' :: rem => some (Json.null, rem)
        | _ => none
      else if c = 't' then
        match rest with
        | 'r' :: 'u' :: 'e' :: rem => some (Json.bool true, rem)
        | _ => none
      else if c = 'f' then
        match rest with
        | 'a' :: 'l' :: 's' :: 'e' :: rem => some (Json.bool false, rem)
        | _ => none
      else if c = '"' then
        match parseStringBody rest with
        | some (cs, rem) => some (Json.str ⟨cs⟩, rem)
        | none => none
      else if c = '[' then
        match skipWs rest with
        | ']' :: rem => some (Json.arr [], rem)
        | cs => match parseElems fuel cs with
                | some (elems, rem) => some (Json.arr elems, rem)
                | none => none
      else if c = '{' then
        match skipWs rest with
        | '}' :: rem => some (Json.obj [], rem)
        | cs => match parseMembers fuel cs with
                | some (members, rem) => some (Json.obj members, rem)
                | none => none
      else
        match parseIntNumeral (c :: rest) with
        | some (n, rem) => some (Json.num n, rem)
        | none => none

/-- Parse the comma-separated elements of a non-empty array, up to and
including the closing bracket. -/
def parseElems : Nat → List Char → Option (List Json × List Char)
  | 0, _ => none
  | fuel + 1, cs =>
      match parseValue fuel cs with
      | none => none
      | some (v, rem) =>
          match skipWs rem with
          | ',' :: rem' =>
              match parseElems fuel (skipWs rem') with
              | some (vs, rem'') => some (v :: vs, rem'')
              | none => none
          | ']' :: rem' => some ([v], rem')
          | _ => none

/-- Parse the comma-separated `"key": value` members of a non-empty
object, up to and including the closing brace. -/
def parseMembers : Nat → List Char → Option (List (String × Json) × List Char)
  | 0, _ => none
  | fuel + 1, cs =>
      match cs with
      | '"' :: cs' =>
          match parseStringBody cs' with
          | none => none
          | some (kcs, rem) =>
              match skipWs rem with
              | ':' :: rem' =>
                  match parseValue fuel (skipWs rem') with
                  | none => none
                  | some (v, rem'') =>
                      match skipWs rem'' with
                      | ',' :: rem3 =>
                          match parseMembers fuel (skipWs rem3) with
                          | some (ms, rem4) => some ((⟨kcs⟩, v) :: ms, rem4)
                          | none => none
                      | '}' :: rem3 => some ([(⟨kcs⟩, v)], rem3)
                      | _ => none
              | _ => none
      | _ => none

end

/-- Model of Python `json.loads`: parse a complete JSON document,
requiring only whitespace after the value; `none` models `ValueError`
(in particular `jsonParse "" = none`, as `json.loads("")` raises). -/
def jsonParse (s : String) : Option Json :=
  match parseValue (3 * s.data.length + 3) (skipWs s.data) with
  | some (v, rem) => if skipWs rem = [] then some v else none
  | none => none

/-! ## Python string primitives used by the script -/

/-- Model of Python `s.startswith(pre)`. -/
def pyStartswith (s pre : String) : Bool :=
  pre.data.isPrefixOf s.data

/-- Model of the Python slice `s[n:]`. -/
def pySliceFrom (s : String) (n : Nat) : String :=
  ⟨s.data.drop n⟩

/-! ## Effects

The script's observable effects — HTTP POSTs, `print` calls and
`sys.exit(1)` — are recorded in a trace.  Each print event carries the
exact data the source interpolates into its message template. -/

/-- The print messages of the script, by payload. -/
inductive Msg where
  /-- `"ERROR: Storage file exists but cannot be read"` (line 184). -/
  | storageUnreadable : Msg
  /-- `"ERROR: Storage JSON is corrupted"` (line 191). -/
  | storageCorrupt : Msg
  /-- `"ERROR: Could not write storage file."` (line 204). -/
  | storageWriteError : Msg
  /-- Registration failure report (lines 131-133): HTTP status and the
  raw response body `res.text`. -/
  | registerError (status : Nat) (body : String) : Msg
  /-- Update failure report (lines 154-166): the outgoing request headers,
  the request body, the response HTTP status, and the response body —
  `inl` the parsed JSON (then serialized) when `res.json()` succeeds,
  `inr` the raw `res.text` when it raises `ValueError`. -/
  | updateError (headers : List (String × String)) (reqBody : Json)
      (status : Nat) (resBody : Json ⊕ String) : Msg
  /-- CNAME operator notice (lines 237-239): carries `VALIDATION_DOMAIN`
  and `account["fulldomain"]`, formatted `"{} CNAME {}."`. -/
  | cnameNotice (validationDomain : String) (fulldomain : String) : Msg

/-- One observable effect of the script. -/
inductive Event where
  /-- `requests.post(acmedns_url + endpoint, headers=..., data=...)`;
  `body = none` when no `data` argument is passed. -/
  | httpPost (endpoint : String) (headers : List (String × String))
      (body : Option Json) : Event
  /-- A `print(...)` call. -/
  | print (m : Msg) : Event
  /-- `sys.exit(code)`. -/
  | exit (code : Nat) : Event

/-- The trace of effects of a run. -/
abbrev Trace := List Event

/-- Is the event the POST to the `/register` endpoint? -/
def Event.isRegisterCall : Event → Bool
  | Event.httpPost ep _ _ => ep = "/register"
  | _ => false

/-- Is the event the POST to the `/update` endpoint? -/
def Event.isUpdateCall : Event → Bool
  | Event.httpPost ep _ _ => ep = "/update"
  | _ => false

/-- Is the event the operator CNAME notice print? -/
def Event.isCnameNotice : Event → Bool
  | Event.print (Msg.cnameNotice _ _) => true
  | _ => false

/-! ## The storage file and the `Storage` class -/

/-- State of the backing storage file as `Storage` observes it. -/
inductive FileState where
  /-- The path does not exist (`open` raises `IOError` and
  `os.path.isfile` is false). -/
  | absent : FileState
  /-- The path exists but opening/reading raises `IOError`
  (`os.path.isfile` is true). -/
  | unreadable : FileState
  /-- The file exists and reads as `content`. -/
  | present (content : String) : FileState
  deriving DecidableEq, Repr

namespace Storage

/-- `Storage.load` (lines 174-193): read the file if possible, then
`json.loads` the content; an absent file or an empty readable file yields
the initial empty `dict()`; an existing unreadable file and non-empty
unparsable content are fatal.  Result `none` means the process exited. -/
def load (fs : FileState) : Trace × Option Json :=
  match fs with
  | FileState.unreadable =>
      ([Event.print Msg.storageUnreadable, Event.exit 1], none)
  | FileState.absent =>
      -- open raises IOError but os.path.isfile is false, so no exit;
      -- filedata stays "", json.loads("") raises with len(filedata) == 0,
      -- so the initial dict() is returned
      ([], some (Json.obj []))
  | FileState.present content =>
      match jsonParse content with
      | some v => ([], some v)
      | none =>
          if content.length > 0 then
            ([Event.print Msg.storageCorrupt, Event.exit 1], none)
          else
            ([], some (Json.obj []))

/-- The possible I/O outcomes of one `Storage.save` call. -/
inductive SaveOutcome where
  /-- `os.open`, `truncate` and `write` all succeed. -/
  | ok : SaveOutcome
  /-- `os.open` raises `IOError`; the file is untouched. -/
  | failOpen : SaveOutcome
  /-- The file is opened (created empty if absent), truncated, and then
  `write` raises `IOError` after `written` characters reached the disk. -/
  | failWrite (written : Nat) : SaveOutcome
  deriving DecidableEq, Repr

/-- `Storage.save` (lines 195-205): `json.dumps` the whole mapping, open
the backing path with `O_WRONLY | O_CREAT` (mode `0o600`), `truncate()`,
and write the serialization in place; any `IOError` prints the write
error and exits 1.  Returns the trace, the resulting file state and
`some ()` iff the process survived. -/
def save (data : List (String × Json)) (fs : FileState) (oc : SaveOutcome) :
    Trace × FileState × Option Unit :=
  let serialized := Json.dumps (Json.obj data)
  match oc with
  | SaveOutcome.failOpen =>
      ([Event.print Msg.storageWriteError, Event.exit 1], fs, none)
  | SaveOutcome.ok =>
      ([], FileState.present serialized, some ())
  | SaveOutcome.failWrite n =>
      -- the truncate() already emptied the file; only a prefix was written
      ([Event.print Msg.storageWriteError, Event.exit 1],
       FileState.present ⟨serialized.data.take n⟩, none)

/-- Insert into a Python dict modelled as an insertion-ordered
association list: assignment to an existing key overwrites in place,
a new key is appended. -/
def assocPut : List (String × Json) → String → Json → List (String × Json)
  | [], k, v => [(k, v)]
  | (k', v') :: rest, k, v =>
      if k' = k then (k, v) :: rest else (k', v') :: assocPut rest k v

/-- `Storage.put` (lines 207-213): strip a leading `*.` wildcard marker
from the key, then assign into the dict. -/
def put (data : List (String × Json)) (key : String) (value : Json) :
    List (String × Json) :=
  let key := if pyStartswith key "*." then pySliceFrom key 2 else key
  assocPut data key value

/-- `Storage.fetch` (lines 215-220): `self._data[key]`, with `KeyError`
caught and turned into `None`. -/
def fetch (data : List (String × Json)) (key : String) : Option Json :=
  data.lookup key

end Storage

/-! ## The `AcmeDnsClient` class

The remote service's behaviour for the single register and the single
update POST a run can make is an environment parameter: the HTTP status
and the raw response text of each. -/

/-- Responses the remote acme-dns service gives to this run's calls. -/
structure HttpEnv where
  /-- Status of the `/register` response. -/
  regStatus : Nat
  /-- `res.text` of the `/register` response. -/
  regText : String
  /-- Status of the `/update` response. -/
  updStatus : Nat
  /-- `res.text` of the `/update` response. -/
  updText : String

/-- `AcmeDnsClient.register_account` (lines 108-134): POST to
`/register`, with body `{"allowfrom": allowfrom}` when `allowfrom` is
truthy (non-empty) and no body at all otherwise; status 201 returns
`res.json()` (`none` with an empty tail trace models the uncaught
`ValueError` when the 201 body is unparsable); any other status prints
the status and body and exits 1. -/
def register_account (env : HttpEnv) (allowfrom : List String) :
    Trace × Option Json :=
  let body : Option Json :=
    if allowfrom.isEmpty then none
    else some (Json.obj [("allowfrom", Json.arr (allowfrom.map Json.str))])
  let call := Event.httpPost "/register" [] body
  if env.regStatus = 201 then
    match jsonParse env.regText with
    | some v => ([call], some v)
    | none => ([call], none)
  else
    ([call, Event.print (Msg.registerError env.regStatus env.regText),
      Event.exit 1], none)

/-- `AcmeDnsClient.update_txt_record` (lines 136-167): POST to `/update`
with headers `X-Api-User`/`X-Api-Key`/`Content-Type` and body
`{"subdomain": ..., "txt": ...}`; status 200 returns silently; any other
status prints the request headers, request body, response status and
response body (parsed JSON when possible, raw text otherwise) and exits
1.  The final catch-all models the uncaught `KeyError` when the account
dict lacks one of the three fields. -/
def update_txt_record (env : HttpEnv) (account : Json) (txt : String) :
    Trace × Option Unit :=
  match account.getStr "subdomain", account.getStr "username",
        account.getStr "password" with
  | some sub, some user, some pass =>
      let updateBody := Json.obj [("subdomain", Json.str sub), ("txt", Json.str txt)]
      let headers := [("X-Api-User", user), ("X-Api-Key", pass),
                      ("Content-Type", "application/json")]
      let call := Event.httpPost "/update" headers (some updateBody)
      if env.updStatus = 200 then
        ([call], some ())
      else
        let resBody : Json ⊕ String :=
          match jsonParse env.updText with
          | some v => Sum.inl v
          | none => Sum.inr env.updText
        ([call, Event.print (Msg.updateError headers updateBody env.updStatus resBody),
          Event.exit 1], none)
  | _, _, _ => ([], none)

/-! ## The `__main__` orchestration -/

/-- Lines 93-95: `DOMAIN = os.environ["CERTBOT_DOMAIN"]`, with a leading
`*.` stripped. -/
def certbotDomainBase (d : String) : String :=
  if pyStartswith d "*." then pySliceFrom d 2 else d

/-- The `__main__` block (lines 222-242): load the storage, fetch the
account for the (wildcard-stripped) domain; if `FORCE_REGISTER` or no
account, register, `put`, `save` and print the CNAME notice; finally
update the TXT record.  Returns the trace, the final storage-file state
and `some ()` iff the process reached the end.  The `some _` catch-all
on the loaded data models the uncaught `TypeError` when the storage JSON
is not an object (`self._data[key]` on a non-dict). -/
def mainRun (env : HttpEnv) (certbotDomain : String) (validationToken : String)
    (forceRegister : Bool) (allowFrom : List String) (fs : FileState)
    (oc : Storage.SaveOutcome) : Trace × FileState × Option Unit :=
  let domain := certbotDomainBase certbotDomain
  let validationDomain := "_acme-challenge." ++ domain
  match Storage.load fs with
  | (t, some (Json.obj o)) =>
      match Storage.fetch o domain, forceRegister with
      | some account, false =>
          let (t4, r) := update_txt_record env account validationToken
          (t ++ t4, fs, r)
      | _, _ =>
          let (t1, regRes) := register_account env allowFrom
          match regRes with
          | none => (t ++ t1, fs, none)
          | some account =>
              let o2 := Storage.put o domain account
              let (t2, fs2, saveRes) := Storage.save o2 fs oc
              match saveRes with
              | none => (t ++ t1 ++ t2, fs2, none)
              | some _ =>
                  match account.getStr "fulldomain" with
                  | none => (t ++ t1 ++ t2, fs2, none)
                  | some fd =>
                      let t3 := [Event.print (Msg.cnameNotice validationDomain fd)]
                      let (t4, updRes) := update_txt_record env account validationToken
                      (t ++ t1 ++ t2 ++ t3 ++ t4, fs2, updRes)
  | (t, some _) => (t, fs, none)
  | (t, none) => (t, fs, none)

/-! ## Helper lemmas -/

/-- Looking up the key just assigned by `assocPut` finds the new value. -/
theorem lookup_assocPut (d : List (String × Json)) (k : String) (v : Json) :
    (Storage.assocPut d k v).lookup k = some v := by
  induction d with
  | nil => simp [Storage.assocPut, List.lookup]
  | cons hd tl ih =>
    obtain ⟨k', v'⟩ := hd
    by_cases h : k' = k
    · subst h; simp [Storage.assocPut, List.lookup]
    · simp only [Storage.assocPut, if_neg h, List.lookup]
      have hb : (k == k') = false := by
        simp only [beq_eq_false_iff_ne, ne_eq]
        exact fun he => h he.symm
      rw [hb]
      exact ih

/-- `assocPut` leaves lookups of other keys unchanged. -/
theorem lookup_assocPut_ne (d : List (String × Json)) (k k' : String) (v : Json)
    (h : k' ≠ k) : (Storage.assocPut d k v).lookup k' = d.lookup k' := by
  induction d with
  | nil =>
    simp only [Storage.assocPut, List.lookup]
    have hb : (k' == k) = false := by simpa using h
    rw [hb]
  | cons hd tl ih =>
    obtain ⟨k2, v2⟩ := hd
    by_cases h2 : k2 = k
    · subst h2
      simp only [Storage.assocPut, if_pos rfl, List.lookup]
      have hb : (k' == k2) = false := by simpa using h
      rw [hb]
    · simp only [Storage.assocPut, if_neg h2, List.lookup]
      cases hb : (k' == k2) with
      | true => rfl
      | false => exact ih

/-- A key beginning with the wildcard marker is `'*' :: '.' ::` its tail. -/
theorem data_of_pyStartswith (k : String) (h : pyStartswith k "*." = true) :
    ∃ t, k.data = '*' :: '.' :: t := by
  unfold pyStartswith at h
  rw [List.isPrefixOf_iff_prefix] at h
  obtain ⟨t, ht⟩ := h
  exact ⟨t, by simpa using ht.symm⟩

/-- Stripping a present wildcard marker strictly shortens the key, so the
stripped key differs from the original. -/
theorem pySliceFrom_ne_of_pyStartswith (k : String) (h : pyStartswith k "*." = true) :
    pySliceFrom k 2 ≠ k := by
  obtain ⟨t, ht⟩ := data_of_pyStartswith k h
  intro he
  have hd : (pySliceFrom k 2).data = k.data := by rw [he]
  rw [pySliceFrom] at hd
  simp only at hd
  rw [ht] at hd
  simp only [List.drop_succ_cons, List.drop_zero] at hd
  have hlen := congrArg List.length hd
  simp at hlen
  omega

/-- A nonempty string has positive length. -/
theorem string_length_pos_of_ne_empty (s : String) (h : s ≠ "") : 0 < s.length := by
  cases s with
  | mk data =>
    cases data with
    | nil => exact absurd rfl h
    | cons c cs => simp [String.length]

/-! ## Claims -/

/-- C2: `Storage.load` satisfies the three-way contract: an absent
backing file yields the empty mapping with no error output; an existing
but unreadable file prints the diagnostic and exits nonzero; non-empty
content that fails JSON parsing prints the corruption error and exits
nonzero (the trace shows no write is attempted — `load` performs none). -/
theorem storage_load_three_way_contract :
    (Storage.load FileState.absent = ([], some (Json.obj [])))
    ∧ (Storage.load FileState.unreadable
        = ([Event.print Msg.storageUnreadable, Event.exit 1], none))
    ∧ (∀ content : String, jsonParse content = none → content ≠ "" →
        Storage.load (FileState.present content)
          = ([Event.print Msg.storageCorrupt, Event.exit 1], none)) := by
  refine ⟨rfl, rfl, ?_⟩
  intro content hparse hne
  have hpos : 0 < content.length := string_length_pos_of_ne_empty content hne
  simp [Storage.load, hparse, hpos]

/-- Witness for C2 at a concrete corrupt storage file. -/
theorem storage_load_three_way_contract_witness :
    Storage.load (FileState.present "not json!")
      = ([Event.print Msg.storageCorrupt, Event.exit 1], none) :=
  storage_load_three_way_contract.2.2 "not json!" (by rfl) (by decide)

/-- C10: `Storage.load` rejects only non-empty unparsable content: an
existing zero-length file yields the empty mapping without error, and any
content that parses as JSON — of any type, objects and non-objects
alike — is returned as the store's data with no corruption error. -/
theorem storage_load_accepts_any_parsed_json :
    (Storage.load (FileState.present "") = ([], some (Json.obj [])))
    ∧ (∀ (content : String) (v : Json), jsonParse content = some v →
        Storage.load (FileState.present content) = ([], some v)) := by
  refine ⟨rfl, ?_⟩
  intro content v hparse
  simp [Storage.load, hparse]

/-- Witness for C10 at a concrete non-object (list) storage content. -/
theorem storage_load_accepts_any_parsed_json_witness :
    Storage.load (FileState.present "[1, 2]")
      = ([], some (Json.arr [Json.num 1, Json.num 2])) :=
  storage_load_accepts_any_parsed_json.2 "[1, 2]"
    (Json.arr [Json.num 1, Json.num 2]) (by rfl)

/-- C7: `Storage.put` strips a leading `*.` wildcard marker before
inserting, so putting under `*.example.com` makes the account fetchable
under `example.com` (over any prior store content); and `Storage.fetch`
on the empty store returns `none` for every domain, raising nothing. -/
theorem storage_put_fetch_wildcard_normalization :
    (∀ (d : List (String × Json)) (A : Json),
        Storage.fetch (Storage.put d "*.example.com" A) "example.com" = some A)
    ∧ (∀ domain : String, Storage.fetch ([] : List (String × Json)) domain = none) := by
  constructor
  · intro d A
    have hput : Storage.put d "*.example.com" A = Storage.assocPut d "example.com" A := by
      rfl
    rw [Storage.fetch, hput]
    exact lookup_assocPut d "example.com" A
  · intro domain
    rfl

/-- C9: `Storage.put` and `Storage.fetch` are asymmetric in wildcard
handling: `put` strips a leading `*.` but `fetch` does not, so for a key
carrying the marker (and not itself stored verbatim), put-then-fetch of
that very key returns `none`, while fetching the stripped key returns
the stored account. -/
theorem storage_put_fetch_wildcard_asymmetry (d : List (String × Json))
    (A : Json) (k : String)
    (hpre : pyStartswith k "*." = true)
    (habs : Storage.fetch d k = none) :
    Storage.fetch (Storage.put d k A) k = none
    ∧ Storage.fetch (Storage.put d k A) (pySliceFrom k 2) = some A := by
  have hput : Storage.put d k A = Storage.assocPut d (pySliceFrom k 2) A := by
    simp [Storage.put, hpre]
  constructor
  · rw [Storage.fetch, hput]
    rw [lookup_assocPut_ne d (pySliceFrom k 2) k A
      (Ne.symm (pySliceFrom_ne_of_pyStartswith k hpre))]
    exact habs
  · rw [Storage.fetch, hput]
    exact lookup_assocPut d (pySliceFrom k 2) A

/-- Witness for C9 at a concrete wildcard key on the empty store. -/
theorem storage_put_fetch_wildcard_asymmetry_witness :
    Storage.fetch (Storage.put [] "*.example.com" (Json.str "acct")) "*.example.com" = none
    ∧ Storage.fetch (Storage.put [] "*.example.com" (Json.str "acct"))
        (pySliceFrom "*.example.com" 2) = some (Json.str "acct") :=
  storage_put_fetch_wildcard_asymmetry [] (Json.str "acct") "*.example.com"
    (by rfl) (by rfl)

/-- C1 counterexample: `Storage.save` is not transactional.  With prior
content on disk, a write that fails right after the `truncate()` leaves
an empty file: neither the previous content nor absence of the file is
what remains. -/
theorem storage_save_partial_file_counterexample :
    ¬ ((Storage.save [("example.org", Json.str "acct")]
          (FileState.present "\x7b\"old\": \"data\"\x7d")
          (Storage.SaveOutcome.failWrite 0)).2.1
        = FileState.present "\x7b\"old\": \"data\"\x7d"
      ∨ (Storage.save [("example.org", Json.str "acct")]
          (FileState.present "\x7b\"old\": \"data\"\x7d")
          (Storage.SaveOutcome.failWrite 0)).2.1
        = FileState.absent) := by
  decide

/-- C1 (amended): `Storage.save` serializes the full mapping and writes
it to the backing path in place (truncate, then write).  On success the
file holds exactly the serialized mapping; any write failure is reported
and the process exits nonzero — but a failure after `truncate()` leaves
a partial file (the written prefix of the serialization, empty in the
worst case) rather than the previous content. -/
theorem storage_save_truncates_in_place (data : List (String × Json)) (fs : FileState) :
    (Storage.save data fs Storage.SaveOutcome.ok
      = ([], FileState.present (Json.dumps (Json.obj data)), some ()))
    ∧ (Storage.save data fs Storage.SaveOutcome.failOpen
      = ([Event.print Msg.storageWriteError, Event.exit 1], fs, none))
    ∧ (∀ n : Nat, Storage.save data fs (Storage.SaveOutcome.failWrite n)
      = ([Event.print Msg.storageWriteError, Event.exit 1],
         FileState.present ⟨(Json.dumps (Json.obj data)).data.take n⟩, none)) :=
  ⟨rfl, rfl, fun _ => rfl⟩

/-- C4: the registration request carries `{"allowfrom": <entries>}` as
its body exactly when the allow-list is non-empty; an empty allow-list
produces a request with no body (no `allowfrom` field) at all. -/
theorem register_request_body_shape (env : HttpEnv) (allowfrom : List String) :
    (allowfrom ≠ [] →
      ((register_account env allowfrom).1.head?
        = some (Event.httpPost "/register" []
            (some (Json.obj [("allowfrom", Json.arr (allowfrom.map Json.str))])))))
    ∧ (allowfrom = [] →
      ((register_account env allowfrom).1.head?
        = some (Event.httpPost "/register" [] none))) := by
  constructor
  · intro hne
    have he : allowfrom.isEmpty = false := by
      simpa [List.isEmpty_iff] using hne
    by_cases h : env.regStatus = 201
    · cases hj : jsonParse env.regText <;>
        simp [register_account, he, h, hj]
    · simp [register_account, he, h]
  · intro hempty
    subst hempty
    by_cases h : env.regStatus = 201
    · cases hj : jsonParse env.regText <;>
        simp [register_account, h, hj]
    · simp [register_account, h]

/-- Witness for C4 at a concrete non-empty and a concrete empty
allow-list. -/
theorem register_request_body_shape_witness :
    ((register_account ⟨201, "{}", 200, ""⟩ ["192.168.10.0/24"]).1.head?
      = some (Event.httpPost "/register" []
          (some (Json.obj [("allowfrom", Json.arr [Json.str "192.168.10.0/24"])]))))
    ∧ ((register_account ⟨201, "{}", 200, ""⟩ []).1.head?
      = some (Event.httpPost "/register" [] none)) :=
  ⟨(register_request_body_shape ⟨201, "{}", 200, ""⟩ ["192.168.10.0/24"]).1 (by simp),
   (register_request_body_shape ⟨201, "{}", 200, ""⟩ []).2 rfl⟩

/-- C5: the update call authenticates through the `X-Api-User` and
`X-Api-Key` request headers taken from the account, its body is exactly
`{"subdomain": ..., "txt": <token>}` (no credentials in the body), and on
HTTP status 200 the call returns successfully with no further effect. -/
theorem update_request_shape_and_success (env : HttpEnv)
    (sub user pass fd txt : String) (h200 : env.updStatus = 200) :
    update_txt_record env
        (Json.obj [("username", Json.str user), ("password", Json.str pass),
                   ("fulldomain", Json.str fd), ("subdomain", Json.str sub)]) txt
      = ([Event.httpPost "/update"
            [("X-Api-User", user), ("X-Api-Key", pass),
             ("Content-Type", "application/json")]
            (some (Json.obj [("subdomain", Json.str sub), ("txt", Json.str txt)]))],
         some ()) := by
  simp [update_txt_record, Json.getStr, List.lookup, h200]

/-- Witness for C5 at a concrete account, token and 200 response. -/
theorem update_request_shape_and_success_witness :
    update_txt_record ⟨201, "{}", 200, "good"⟩
        (Json.obj [("username", Json.str "u"), ("password", Json.str "p"),
                   ("fulldomain", Json.str "s.acme.example"),
                   ("subdomain", Json.str "s")]) "tok"
      = ([Event.httpPost "/update"
            [("X-Api-User", "u"), ("X-Api-Key", "p"),
             ("Content-Type", "application/json")]
            (some (Json.obj [("subdomain", Json.str "s"), ("txt", Json.str "tok")]))],
         some ()) :=
  update_request_shape_and_success ⟨201, "{}", 200, "good"⟩ "s" "u" "p"
    "s.acme.example" "tok" rfl

/-- No event of an `update_txt_record` call is the registration POST or
the CNAME operator notice. -/
theorem update_events_not_register_not_cname (env : HttpEnv) (account : Json)
    (txt : String) :
    ∀ e ∈ (update_txt_record env account txt).1,
      e.isRegisterCall = false ∧ e.isCnameNotice = false := by
  unfold update_txt_record
  split
  · split
    · simp [Event.isRegisterCall, Event.isCnameNotice]
    · simp [Event.isRegisterCall, Event.isCnameNotice]
  · simp

/-- The first event of an `update_txt_record` call on a well-formed
account is the authenticated POST to `/update`. -/
theorem update_trace_head (env : HttpEnv) (sub user pass fd txt : String) :
    (update_txt_record env
        (Json.obj [("username", Json.str user), ("password", Json.str pass),
                   ("fulldomain", Json.str fd), ("subdomain", Json.str sub)]) txt).1.head?
      = some (Event.httpPost "/update"
          [("X-Api-User", user), ("X-Api-Key", pass),
           ("Content-Type", "application/json")]
          (some (Json.obj [("subdomain", Json.str sub), ("txt", Json.str txt)]))) := by
  by_cases h200 : env.updStatus = 200 <;>
    cases hj : jsonParse env.updText <;>
      simp [update_txt_record, Json.getStr, List.lookup, h200, hj]

/-- C6: on any update response status other than 200 the process prints a
diagnostic carrying the full outgoing request headers, the request body,
the response status, and the response body — its parsed JSON when
`res.json()` succeeds, the raw response text otherwise — and exits
nonzero. -/
theorem update_bad_status_error_report (env : HttpEnv)
    (sub user pass fd txt : String) (hne : ¬ env.updStatus = 200) :
    update_txt_record env
        (Json.obj [("username", Json.str user), ("password", Json.str pass),
                   ("fulldomain", Json.str fd), ("subdomain", Json.str sub)]) txt
      = ([Event.httpPost "/update"
            [("X-Api-User", user), ("X-Api-Key", pass),
             ("Content-Type", "application/json")]
            (some (Json.obj [("subdomain", Json.str sub), ("txt", Json.str txt)])),
          Event.print (Msg.updateError
            [("X-Api-User", user), ("X-Api-Key", pass),
             ("Content-Type", "application/json")]
            (Json.obj [("subdomain", Json.str sub), ("txt", Json.str txt)])
            env.updStatus
            (match jsonParse env.updText with
             | some v => Sum.inl v
             | none => Sum.inr env.updText)),
          Event.exit 1],
         none) := by
  cases hj : jsonParse env.updText <;>
    simp [update_txt_record, Json.getStr, List.lookup, hne, hj]

/-- Witness for C6 at a concrete 401 response whose body is not JSON. -/
theorem update_bad_status_error_report_witness :
    update_txt_record ⟨201, "{}", 401, "bad auth"⟩
        (Json.obj [("username", Json.str "u"), ("password", Json.str "p"),
                   ("fulldomain", Json.str "s.acme.example"),
                   ("subdomain", Json.str "s")]) "tok"
      = ([Event.httpPost "/update"
            [("X-Api-User", "u"), ("X-Api-Key", "p"),
             ("Content-Type", "application/json")]
            (some (Json.obj [("subdomain", Json.str "s"), ("txt", Json.str "tok")])),
          Event.print (Msg.updateError
            [("X-Api-User", "u"), ("X-Api-Key", "p"),
             ("Content-Type", "application/json")]
            (Json.obj [("subdomain", Json.str "s"), ("txt", Json.str "tok")])
            401 (Sum.inr "bad auth")),
          Event.exit 1],
         none) := by
  have h := update_bad_status_error_report ⟨201, "{}", 401, "bad auth"⟩
    "s" "u" "p" "s.acme.example" "tok" (by decide)
  simpa using h

/-- C3: when the registration response status is not 201 (on a run that
registers: no stored account, or force flag set), the whole run is the
register POST, the status-and-body error report and the nonzero exit —
the storage file is untouched and no update call is attempted. -/
theorem register_bad_status_aborts_run (env : HttpEnv)
    (dom token : String) (force : Bool) (allowFrom : List String)
    (content : String) (o : List (String × Json)) (oc : Storage.SaveOutcome)
    (hload : jsonParse content = some (Json.obj o))
    (hbranch : force = true ∨ Storage.fetch o (certbotDomainBase dom) = none)
    (hstatus : ¬ env.regStatus = 201) :
    (mainRun env dom token force allowFrom (FileState.present content) oc
      = ([Event.httpPost "/register" []
            (if allowFrom.isEmpty then none
             else some (Json.obj [("allowfrom", Json.arr (allowFrom.map Json.str))])),
          Event.print (Msg.registerError env.regStatus env.regText),
          Event.exit 1],
         FileState.present content, none))
    ∧ (∀ e ∈ (mainRun env dom token force allowFrom (FileState.present content) oc).1,
        e.isUpdateCall = false) := by
  have hreg : register_account env allowFrom
      = ([Event.httpPost "/register" []
            (if allowFrom.isEmpty then none
             else some (Json.obj [("allowfrom", Json.arr (allowFrom.map Json.str))])),
          Event.print (Msg.registerError env.regStatus env.regText),
          Event.exit 1], none) := by
    simp [register_account, hstatus]
  have h1 : mainRun env dom token force allowFrom (FileState.present content) oc
      = ([Event.httpPost "/register" []
            (if allowFrom.isEmpty then none
             else some (Json.obj [("allowfrom", Json.arr (allowFrom.map Json.str))])),
          Event.print (Msg.registerError env.regStatus env.regText),
          Event.exit 1],
         FileState.present content, none) := by
    unfold mainRun
    rcases hbranch with hb | hb
    · subst hb
      cases hf : Storage.fetch o (certbotDomainBase dom) <;>
        simp [Storage.load, hload, hf, hreg]
    · cases force <;> simp [Storage.load, hload, hb, hreg]
  refine ⟨h1, ?_⟩
  rw [h1]
  simp [Event.isUpdateCall]

/-- Witness for C3: a concrete empty store and a 400 registration
response. -/
theorem register_bad_status_aborts_run_witness :
    (mainRun ⟨400, "bad request", 200, ""⟩ "example.org" "tok" false []
        (FileState.present "{}") Storage.SaveOutcome.ok
      = ([Event.httpPost "/register" [] none,
          Event.print (Msg.registerError 400 "bad request"),
          Event.exit 1],
         FileState.present "{}", none))
    ∧ (∀ e ∈ (mainRun ⟨400, "bad request", 200, ""⟩ "example.org" "tok" false []
          (FileState.present "{}") Storage.SaveOutcome.ok).1,
        e.isUpdateCall = false) :=
  register_bad_status_aborts_run ⟨400, "bad request", 200, ""⟩ "example.org"
    "tok" false [] "{}" [] Storage.SaveOutcome.ok (by rfl) (Or.inr (by rfl))
    (by decide)

/-- C8: when the store already holds an account for the validated domain
and the force flag is unset, the run is exactly the update call made with
the stored credential — no register POST happens, the storage file is not
written, and the CNAME operator notice is not printed. -/
theorem existing_account_skips_registration (env : HttpEnv)
    (dom token : String) (allowFrom : List String) (oc : Storage.SaveOutcome)
    (content : String) (o : List (String × Json)) (sub user pass fd : String)
    (hload : jsonParse content = some (Json.obj o))
    (hfetch : Storage.fetch o (certbotDomainBase dom)
        = some (Json.obj [("username", Json.str user), ("password", Json.str pass),
                          ("fulldomain", Json.str fd), ("subdomain", Json.str sub)])) :
    (mainRun env dom token false allowFrom (FileState.present content) oc
      = ((update_txt_record env
            (Json.obj [("username", Json.str user), ("password", Json.str pass),
                       ("fulldomain", Json.str fd), ("subdomain", Json.str sub)]) token).1,
         FileState.present content,
         (update_txt_record env
            (Json.obj [("username", Json.str user), ("password", Json.str pass),
                       ("fulldomain", Json.str fd), ("subdomain", Json.str sub)]) token).2))
    ∧ (∀ e ∈ (mainRun env dom token false allowFrom (FileState.present content) oc).1,
        e.isRegisterCall = false ∧ e.isCnameNotice = false)
    ∧ ((mainRun env dom token false allowFrom (FileState.present content) oc).1.head?
        = some (Event.httpPost "/update"
            [("X-Api-User", user), ("X-Api-Key", pass),
             ("Content-Type", "application/json")]
            (some (Json.obj [("subdomain", Json.str sub), ("txt", Json.str token)])))) := by
  have h1 : mainRun env dom token false allowFrom (FileState.present content) oc
      = ((update_txt_record env
            (Json.obj [("username", Json.str user), ("password", Json.str pass),
                       ("fulldomain", Json.str fd), ("subdomain", Json.str sub)]) token).1,
         FileState.present content,
         (update_txt_record env
            (Json.obj [("username", Json.str user), ("password", Json.str pass),
                       ("fulldomain", Json.str fd), ("subdomain", Json.str sub)]) token).2) := by
    unfold mainRun
    rcases hupd : update_txt_record env
        (Json.obj [("username", Json.str user), ("password", Json.str pass),
                   ("fulldomain", Json.str fd), ("subdomain", Json.str sub)]) token
      with ⟨t4, r⟩
    simp [Storage.load, hload, hfetch, hupd]
  refine ⟨h1, ?_, ?_⟩
  · rw [h1]
    exact update_events_not_register_not_cname env _ token
  · rw [h1]
    exact update_trace_head env sub user pass fd token

/-- Witness for C8: a concrete one-account store, wildcard-free domain
and 200 update response. -/
theorem existing_account_skips_registration_witness :
    (mainRun ⟨201, "{}", 200, ""⟩ "example.org" "tok" false []
        (FileState.present "\x7b\"example.org\": \x7b\"username\": \"u\", \"password\": \"p\", \"fulldomain\": \"s.acme.example\", \"subdomain\": \"s\"\x7d\x7d")
        Storage.SaveOutcome.ok
      = ((update_txt_record ⟨201, "{}", 200, ""⟩
            (Json.obj [("username", Json.str "u"), ("password", Json.str "p"),
                       ("fulldomain", Json.str "s.acme.example"),
                       ("subdomain", Json.str "s")]) "tok").1,
         FileState.present "\x7b\"example.org\": \x7b\"username\": \"u\", \"password\": \"p\", \"fulldomain\": \"s.acme.example\", \"subdomain\": \"s\"\x7d\x7d",
         (update_txt_record ⟨201, "{}", 200, ""⟩
            (Json.obj [("username", Json.str "u"), ("password", Json.str "p"),
                       ("fulldomain", Json.str "s.acme.example"),
                       ("subdomain", Json.str "s")]) "tok").2))
    ∧ (∀ e ∈ (mainRun ⟨201, "{}", 200, ""⟩ "example.org" "tok" false []
          (FileState.present "\x7b\"example.org\": \x7b\"username\": \"u\", \"password\": \"p\", \"fulldomain\": \"s.acme.example\", \"subdomain\": \"s\"\x7d\x7d")
          Storage.SaveOutcome.ok).1,
        e.isRegisterCall = false ∧ e.isCnameNotice = false)
    ∧ ((mainRun ⟨201, "{}", 200, ""⟩ "example.org" "tok" false []
          (FileState.present "\x7b\"example.org\": \x7b\"username\": \"u\", \"password\": \"p\", \"fulldomain\": \"s.acme.example\", \"subdomain\": \"s\"\x7d\x7d")
          Storage.SaveOutcome.ok).1.head?
        = some (Event.httpPost "/update"
            [("X-Api-User", "u"), ("X-Api-Key", "p"),
             ("Content-Type", "application/json")]
            (some (Json.obj [("subdomain", Json.str "s"), ("txt", Json.str "tok")])))) :=
  existing_account_skips_registration ⟨201, "{}", 200, ""⟩ "example.org" "tok"
    [] Storage.SaveOutcome.ok
    "\x7b\"example.org\": \x7b\"username\": \"u\", \"password\": \"p\", \"fulldomain\": \"s.acme.example\", \"subdomain\": \"s\"\x7d\x7d"
    [("example.org",
      Json.obj [("username", Json.str "u"), ("password", Json.str "p"),
                ("fulldomain", Json.str "s.acme.example"), ("subdomain", Json.str "s")])]
    "s" "u" "p" "s.acme.example" (by rfl) (by rfl)

end AcmeDns
